import Mathlib

/-!
Verification of the emissions calculation engine of `emissions1.py`
(EU ETS & FuelEU Maritime calculator).

The engine's arithmetic (Python floats) is modelled over the exact
rationals `ℚ`; `round(x, n)` is modelled as round-half-to-even at `n`
decimal digits (Python's rounding rule), applied to the exact value.
Absent metrics (guards against division by zero) are modelled with
`Option ℚ`: `none` stands for a metric that the engine does not emit.
-/

namespace Emissions

/-- One row of the `emission_factors` table: LCV (MJ/g), well-to-wake GHG
factor (gCO2e/MJ) and tank-to-wake CO2 factor (gCO2e/MJ). -/
structure EmissionFactor where
  lcv : ℚ
  ghgWtW : ℚ
  co2TtW : ℚ
deriving DecidableEq

/-- One `fuel_inputs` record: the six consumption fields
(main engine, auxiliary engine, other) × (sailing, port), in metric tons. -/
structure FuelInput where
  meSailing : ℚ
  aeSailing : ℚ
  otherSailing : ℚ
  mePort : ℚ
  aePort : ℚ
  otherPort : ℚ
deriving DecidableEq

/-- Python `calc_energy_mt(fuel_mass_ton, lcv_mj_g) = lcv_mj_g * fuel_mass_ton * 1e6`. -/
def calc_energy_mt (fuel_mass_ton lcv_mj_g : ℚ) : ℚ :=
  lcv_mj_g * fuel_mass_ton * 1000000

/-- Python `calc_ghg_mt(total_energy_mj, ghg_ef_wtw) = total_energy_mj * ghg_ef_wtw / 1e6`. -/
def calc_ghg_mt (total_energy_mj ghg_ef_wtw : ℚ) : ℚ :=
  total_energy_mj * ghg_ef_wtw / 1000000

/-- Python `calc_co2_mt(total_energy_mj, co2_ef_ttw) = total_energy_mj * co2_ef_ttw / 1e6`. -/
def calc_co2_mt (total_energy_mj co2_ef_ttw : ℚ) : ℚ :=
  total_energy_mj * co2_ef_ttw / 1000000

/-- Python `calc_eua(co2_mt) = co2_mt` (1 EUA per 1 ton CO2). -/
def calc_eua (co2_mt : ℚ) : ℚ := co2_mt

/-- Sum `sailing_mass = ME + AE + Other` of the sailing consumption fields. -/
def sailingMass (v : FuelInput) : ℚ :=
  v.meSailing + v.aeSailing + v.otherSailing

/-- Sum `port_mass = ME + AE + Other` of the port consumption fields. -/
def portMass (v : FuelInput) : ℚ :=
  v.mePort + v.aePort + v.otherPort

/-- Round-half-to-even to the nearest integer (Python's rounding rule). -/
def roundHalfEven (x : ℚ) : ℤ :=
  let f := ⌊x⌋
  let r := x - (f : ℚ)
  if r < 1/2 then f
  else if 1/2 < r then f + 1
  else if f % 2 = 0 then f else f + 1

/-- Python's `round(x, ndigits)` on the exact value: round-half-to-even at
`ndigits` decimal digits. -/
def pyRound (ndigits : ℕ) (x : ℚ) : ℚ :=
  (roundHalfEven (x * 10 ^ ndigits) : ℚ) / 10 ^ ndigits

/-- One row of the results table appended by the Calculate Emissions loop;
every field is stored after display rounding, exactly as in
`results.append({...})` (masses, GHG, CO2 and EUAs rounded to 2 digits,
energy converted to TJ and rounded to 4 digits). -/
structure PerFuelResult where
  fuelType : String
  sailingFuel : ℚ
  portFuel : ℚ
  sailingEnergyTJ : ℚ
  portEnergyTJ : ℚ
  sailingGhg : ℚ
  portGhg : ℚ
  sailingCo2 : ℚ
  portCo2 : ℚ
  sailingEUAs : ℚ
  portEUAs : ℚ
deriving DecidableEq

/-- The body of the Calculate Emissions loop for one fuel (the part after
the skip test): the formula chain followed by the rounded `results.append`. -/
def calcRow (fuel : String) (factor : EmissionFactor) (v : FuelInput) : PerFuelResult :=
  let sailing_mass := sailingMass v
  let port_mass := portMass v
  let sailing_energy_mj := calc_energy_mt sailing_mass factor.lcv
  let port_energy_mj := calc_energy_mt port_mass factor.lcv
  let sailing_ghg_mt := calc_ghg_mt sailing_energy_mj factor.ghgWtW
  let port_ghg_mt := calc_ghg_mt port_energy_mj factor.ghgWtW
  let sailing_co2_mt := calc_co2_mt sailing_energy_mj factor.co2TtW
  let port_co2_mt := calc_co2_mt port_energy_mj factor.co2TtW
  let sailing_eua := calc_eua sailing_co2_mt
  let port_eua := calc_eua port_co2_mt
  { fuelType := fuel
    sailingFuel := pyRound 2 sailing_mass
    portFuel := pyRound 2 port_mass
    sailingEnergyTJ := pyRound 4 (sailing_energy_mj / 1000000)
    portEnergyTJ := pyRound 4 (port_energy_mj / 1000000)
    sailingGhg := pyRound 2 sailing_ghg_mt
    portGhg := pyRound 2 port_ghg_mt
    sailingCo2 := pyRound 2 sailing_co2_mt
    portCo2 := pyRound 2 port_co2_mt
    sailingEUAs := pyRound 2 sailing_eua
    portEUAs := pyRound 2 port_eua }

/-- The Calculate Emissions loop over `st.session_state.fuel_inputs.items()`,
each fuel paired with its row of the factor table; a fuel whose sailing and
port masses are both zero is skipped (`continue`), the rest produce a row. -/
def calcResults (entries : List (String × EmissionFactor × FuelInput)) : List PerFuelResult :=
  entries.filterMap fun e =>
    if sailingMass e.2.2 = 0 ∧ portMass e.2.2 = 0 then none
    else some (calcRow e.1 e.2.1 e.2.2)

/-- Column sum `totals["Total Sailing Fuel (MT)"]`: column sum of the rounded rows. -/
def totalSailingFuel (rs : List PerFuelResult) : ℚ := (rs.map PerFuelResult.sailingFuel).sum

/-- Column sum `totals["Total Port Fuel (MT)"]`. -/
def totalPortFuel (rs : List PerFuelResult) : ℚ := (rs.map PerFuelResult.portFuel).sum

/-- Column sum `totals["Total Sailing Energy (TJ)"]`. -/
def totalSailingEnergyTJ (rs : List PerFuelResult) : ℚ := (rs.map PerFuelResult.sailingEnergyTJ).sum

/-- Column sum `totals["Total Port Energy (TJ)"]`. -/
def totalPortEnergyTJ (rs : List PerFuelResult) : ℚ := (rs.map PerFuelResult.portEnergyTJ).sum

/-- Column sum `totals["Total Sailing GHG (MT)"]`. -/
def totalSailingGhg (rs : List PerFuelResult) : ℚ := (rs.map PerFuelResult.sailingGhg).sum

/-- Column sum `totals["Total Port GHG (MT)"]`. -/
def totalPortGhg (rs : List PerFuelResult) : ℚ := (rs.map PerFuelResult.portGhg).sum

/-- Column sum `totals["Total Sailing CO2 (MT)"]`. -/
def totalSailingCo2 (rs : List PerFuelResult) : ℚ := (rs.map PerFuelResult.sailingCo2).sum

/-- Column sum `totals["Total Port CO2 (MT)"]`. -/
def totalPortCo2 (rs : List PerFuelResult) : ℚ := (rs.map PerFuelResult.portCo2).sum

/-- Column sum `totals["Total Sailing EUAs"]`. -/
def totalSailingEUAs (rs : List PerFuelResult) : ℚ := (rs.map PerFuelResult.sailingEUAs).sum

/-- Column sum `totals["Total Port EUAs"]`. -/
def totalPortEUAs (rs : List PerFuelResult) : ℚ := (rs.map PerFuelResult.portEUAs).sum

/-- Column sum `totals["Total EUAs (Sailing + Port)"]`. -/
def totalEUAsAll (rs : List PerFuelResult) : ℚ := totalSailingEUAs rs + totalPortEUAs rs

/-- Loop variable `total_energy`: Total Sailing Energy (TJ) plus Total Port Energy (TJ). -/
def totalEnergyTJ (rs : List PerFuelResult) : ℚ := totalSailingEnergyTJ rs + totalPortEnergyTJ rs

/-- Loop variable `total_ghg`: Total Sailing GHG (MT) plus Total Port GHG (MT). -/
def totalGhgMT (rs : List PerFuelResult) : ℚ := totalSailingGhg rs + totalPortGhg rs

/-- Total CO2 (sailing + port), used by the efficiency metrics. -/
def totalCo2MT (rs : List PerFuelResult) : ℚ := totalSailingCo2 rs + totalPortCo2 rs

/-- Total fuel mass (sailing + port), used by the efficiency metrics. -/
def totalFuelMT (rs : List PerFuelResult) : ℚ := totalSailingFuel rs + totalPortFuel rs

/-- GHG intensity metric: emitted only under `if total_energy > 0`, as
`(total_ghg * 1e6) / (total_energy * 1e6)` in gCO2e/MJ; otherwise absent. -/
def ghgIntensity (rs : List PerFuelResult) : Option ℚ :=
  if 0 < totalEnergyTJ rs then
    some (totalGhgMT rs * 1000000 / (totalEnergyTJ rs * 1000000))
  else none

/-- Gap `compliance_gap = ghg_intensity - ghg_target`. -/
def complianceGap (intensity target : ℚ) : ℚ := intensity - target

/-- The compliance branch: `compliance_gap <= 0` reports compliant. -/
def isCompliant (gap : ℚ) : Bool := gap ≤ 0

/-- Penalty `penalty_factor = compliance_gap * total_energy * 1e6 * 2400 / 1e6`,
with `total_energy` in TJ. -/
def penaltyFactor (gap total_energy_tj : ℚ) : ℚ :=
  gap * total_energy_tj * 1000000 * 2400 / 1000000

/-- The EUA price constant: `* 85  # €85 per EUA (approximate)`. -/
def euaPriceEur : ℚ := 85

/-- Cost `eua_cost = totals["Total EUAs (Sailing + Port)"] * 85`. -/
def euaCostEur (rs : List PerFuelResult) : ℚ := totalEUAsAll rs * euaPriceEur

/-- Fuel efficiency metric: emitted only under `if distance > 0`, as
`total fuel / distance * 1000` (kg/nm); otherwise absent. -/
def fuelPerDistance (rs : List PerFuelResult) (distance : ℚ) : Option ℚ :=
  if 0 < distance then some (totalFuelMT rs / distance * 1000) else none

/-- CO2 efficiency metric: emitted only under `if distance > 0`, as
`total CO2 / distance * 1000` (kg CO2/nm); otherwise absent. -/
def co2PerDistance (rs : List PerFuelResult) (distance : ℚ) : Option ℚ :=
  if 0 < distance then some (totalCo2MT rs / distance * 1000) else none

/-- Cargo efficiency metric: emitted only under `if cargo_carried > 0`, as
`total CO2 / cargo_carried * 1000` (kg CO2/tonne); otherwise absent. -/
def co2PerCargo (rs : List PerFuelResult) (cargo : ℚ) : Option ℚ :=
  if 0 < cargo then some (totalCo2MT rs / cargo * 1000) else none

/-- All six consumption fields are nonnegative (the input widgets enforce
`min_value=0.0`). -/
abbrev NonnegInput (v : FuelInput) : Prop :=
  0 ≤ v.meSailing ∧ 0 ≤ v.aeSailing ∧ 0 ≤ v.otherSailing ∧
    0 ≤ v.mePort ∧ 0 ≤ v.aePort ∧ 0 ≤ v.otherPort

/-- The HFO row of the factor table. -/
def hfoFactor : EmissionFactor := { lcv := 0.0405, ghgWtW := 91.74, co2TtW := 76.89 }

/-- A consumption record with 100 t of main-engine sailing consumption and
nothing else. -/
def input100 : FuelInput :=
  { meSailing := 100, aeSailing := 0, otherSailing := 0
    mePort := 0, aePort := 0, otherPort := 0 }

/-- The Biofuel 2 row of the factor table: all three factors default to 0. -/
def bf2Factor : EmissionFactor := { lcv := 0, ghgWtW := 0, co2TtW := 0 }

/-- The all-zero consumption record (every widget left at its 0.0 default). -/
def inputZero : FuelInput :=
  { meSailing := 0, aeSailing := 0, otherSailing := 0
    mePort := 0, aePort := 0, otherPort := 0 }

/-- A consumption record with 1 t of main-engine sailing consumption and
nothing else. -/
def input1 : FuelInput :=
  { meSailing := 1, aeSailing := 0, otherSailing := 0
    mePort := 0, aePort := 0, otherPort := 0 }

/-- A two-fuel input snapshot: HFO with 100 t of sailing consumption and
Biofuel 2 with no consumption at all. -/
def entriesTwo : List (String × EmissionFactor × FuelInput) :=
  [("HFO", hfoFactor, input100), ("Biofuel 2", bf2Factor, inputZero)]

end Emissions

namespace Emissions

/-- Membership in the results list: a row is produced exactly for the
entries that survive the skip test, and it is that entry's `calcRow`. -/
theorem calcResults_mem_iff (entries : List (String × EmissionFactor × FuelInput))
    (r : PerFuelResult) :
    r ∈ calcResults entries ↔
      ∃ e, e ∈ entries ∧ ¬(sailingMass e.2.2 = 0 ∧ portMass e.2.2 = 0) ∧
        calcRow e.1 e.2.1 e.2.2 = r := by
  unfold calcResults
  rw [List.mem_filterMap]
  constructor
  · rintro ⟨e, he, hfe⟩
    by_cases h : sailingMass e.2.2 = 0 ∧ portMass e.2.2 = 0
    · rw [if_pos h] at hfe
      exact Option.noConfusion hfe
    · rw [if_neg h] at hfe
      exact ⟨e, he, h, Option.some_injective _ hfe⟩
  · rintro ⟨e, he, h, hr⟩
    exact ⟨e, he, by rw [if_neg h, hr]⟩

/-- Round-half-to-even of a nonnegative rational is nonnegative. -/
theorem roundHalfEven_nonneg {x : ℚ} (hx : 0 ≤ x) : 0 ≤ roundHalfEven x := by
  have hf : (0 : ℤ) ≤ ⌊x⌋ := Int.floor_nonneg.mpr hx
  simp only [roundHalfEven]
  split_ifs <;> omega

/-- Rounding at `n` digits preserves nonnegativity. -/
theorem pyRound_nonneg (n : ℕ) {x : ℚ} (hx : 0 ≤ x) : 0 ≤ pyRound n x := by
  have h1 : (0 : ℚ) ≤ x * 10 ^ n := by positivity
  have h2 : (0 : ℚ) ≤ (roundHalfEven (x * 10 ^ n) : ℚ) := by
    exact_mod_cast roundHalfEven_nonneg h1
  exact div_nonneg h2 (by positivity)

/-- Round-half-to-even fixes zero. -/
theorem roundHalfEven_zero : roundHalfEven 0 = 0 := by
  simp only [roundHalfEven]
  norm_num

/-- Rounding at `n` digits fixes zero. -/
theorem pyRound_zero (n : ℕ) : pyRound n 0 = 0 := by
  simp only [pyRound, zero_mul, roundHalfEven_zero, Int.cast_zero, zero_div]

/-- Evaluation of round-half-to-even below the midpoint. -/
theorem roundHalfEven_eq_low (x : ℚ) (f : ℤ) (h1 : (f : ℚ) ≤ x) (h2 : x - f < 1/2) :
    roundHalfEven x = f := by
  have hf : ⌊x⌋ = f := Int.floor_eq_iff.mpr ⟨h1, by linarith⟩
  simp only [roundHalfEven, hf]
  rw [if_pos h2]

/-- Evaluation of round-half-to-even above the midpoint. -/
theorem roundHalfEven_eq_high (x : ℚ) (f : ℤ) (h1 : (f : ℚ) ≤ x) (h2 : x - f < 1)
    (h3 : 1/2 < x - f) : roundHalfEven x = f + 1 := by
  have hf : ⌊x⌋ = f := Int.floor_eq_iff.mpr ⟨h1, by linarith⟩
  simp only [roundHalfEven, hf]
  rw [if_neg (by linarith), if_pos h3]

/-- Evaluation of `pyRound` when the scaled value sits below the midpoint. -/
theorem pyRound_eq_low (n : ℕ) (x : ℚ) (f : ℤ) (h1 : (f : ℚ) ≤ x * 10 ^ n)
    (h2 : x * 10 ^ n - f < 1/2) : pyRound n x = f / 10 ^ n := by
  rw [pyRound, roundHalfEven_eq_low (x * 10 ^ n) f h1 h2]

/-- Evaluation of `pyRound` when the scaled value sits above the midpoint. -/
theorem pyRound_eq_high (n : ℕ) (x : ℚ) (f : ℤ) (h1 : (f : ℚ) ≤ x * 10 ^ n)
    (h2 : x * 10 ^ n - f < 1) (h3 : 1/2 < x * 10 ^ n - f) :
    pyRound n x = (f + 1) / 10 ^ n := by
  rw [pyRound, roundHalfEven_eq_high (x * 10 ^ n) f h1 h2 h3]
  push_cast
  ring

/-- Both energy columns of a produced row are nonnegative when the fuel's
LCV and all six consumption fields are nonnegative. -/
theorem calcRow_energyTJ_nonneg (fuel : String) {factor : EmissionFactor} {v : FuelInput}
    (hl : 0 ≤ factor.lcv) (hv : NonnegInput v) :
    0 ≤ (calcRow fuel factor v).sailingEnergyTJ ∧ 0 ≤ (calcRow fuel factor v).portEnergyTJ := by
  obtain ⟨h1, h2, h3, h4, h5, h6⟩ := hv
  have hs : 0 ≤ sailingMass v := by
    unfold sailingMass
    positivity
  have hp : 0 ≤ portMass v := by
    unfold portMass
    positivity
  simp only [calcRow]
  constructor <;> apply pyRound_nonneg <;> unfold calc_energy_mt
  · exact div_nonneg (mul_nonneg (mul_nonneg hl hs) (by norm_num)) (by norm_num)
  · exact div_nonneg (mul_nonneg (mul_nonneg hl hp) (by norm_num)) (by norm_num)

/-- The summed energy total is nonnegative for nonnegative inputs. -/
theorem totalEnergyTJ_nonneg {entries : List (String × EmissionFactor × FuelInput)}
    (h : ∀ e ∈ entries, 0 ≤ e.2.1.lcv ∧ NonnegInput e.2.2) :
    0 ≤ totalEnergyTJ (calcResults entries) := by
  have hr : ∀ r ∈ calcResults entries, 0 ≤ r.sailingEnergyTJ ∧ 0 ≤ r.portEnergyTJ := by
    intro r hrmem
    rw [calcResults_mem_iff] at hrmem
    obtain ⟨e, he, -, hrow⟩ := hrmem
    obtain ⟨hl, hv⟩ := h e he
    rw [← hrow]
    exact calcRow_energyTJ_nonneg e.1 hl hv
  unfold totalEnergyTJ totalSailingEnergyTJ totalPortEnergyTJ
  apply add_nonneg
  · apply List.sum_nonneg
    intro x hx
    obtain ⟨r, hrm, rfl⟩ := List.mem_map.mp hx
    exact (hr r hrm).1
  · apply List.sum_nonneg
    intro x hx
    obtain ⟨r, hrm, rfl⟩ := List.mem_map.mp hx
    exact (hr r hrm).2

/-- Concrete evaluation: the single-entry HFO snapshot is not skipped. -/
theorem calcResults_hfo100 :
    calcResults [("HFO", hfoFactor, input100)] = [calcRow "HFO" hfoFactor input100] := by
  norm_num [calcResults, List.filterMap_cons, sailingMass, portMass, input100]

/-- Concrete evaluation of the HFO row at 100 t sailing consumption: the
stored (display-rounded) figures. -/
theorem calcRow_hfo100 :
    calcRow "HFO" hfoFactor input100 =
      { fuelType := "HFO", sailingFuel := 100, portFuel := 0
        sailingEnergyTJ := 4.05, portEnergyTJ := 0
        sailingGhg := 371.55, portGhg := 0
        sailingCo2 := 311.4, portCo2 := 0
        sailingEUAs := 311.4, portEUAs := 0 } := by
  have hm : sailingMass input100 = 100 := by norm_num [sailingMass, input100]
  have hp : portMass input100 = 0 := by norm_num [portMass, input100]
  have e0 : ∀ y : ℚ, y = 0 → pyRound 2 y = 0 := by
    rintro y rfl
    exact pyRound_zero 2
  have e4 : ∀ y : ℚ, y = 0 → pyRound 4 y = 0 := by
    rintro y rfl
    exact pyRound_zero 4
  simp only [calcRow, hm, hp, hfoFactor, calc_energy_mt, calc_ghg_mt, calc_co2_mt, calc_eua]
  rw [PerFuelResult.mk.injEq]
  refine ⟨rfl, ?_, ?_, ?_, ?_, ?_, ?_, ?_, ?_, ?_, ?_⟩
  · rw [pyRound_eq_low 2 100 10000 (by norm_num) (by norm_num)]
    norm_num
  · exact e0 _ (by norm_num)
  · rw [show ((0.0405 : ℚ) * 100 * 1000000 / 1000000) = 4.05 by norm_num,
      pyRound_eq_low 4 4.05 40500 (by norm_num) (by norm_num)]
    norm_num
  · exact e4 _ (by norm_num)
  · rw [show ((0.0405 : ℚ) * 100 * 1000000 * 91.74 / 1000000) = 371.547 by norm_num,
      pyRound_eq_high 2 371.547 37154 (by norm_num) (by norm_num) (by norm_num)]
    norm_num
  · exact e0 _ (by norm_num)
  · rw [show ((0.0405 : ℚ) * 100 * 1000000 * 76.89 / 1000000) = 311.4045 by norm_num,
      pyRound_eq_low 2 311.4045 31140 (by norm_num) (by norm_num)]
    norm_num
  · exact e0 _ (by norm_num)
  · rw [show ((0.0405 : ℚ) * 100 * 1000000 * 76.89 / 1000000) = 311.4045 by norm_num,
      pyRound_eq_low 2 311.4045 31140 (by norm_num) (by norm_num)]
    norm_num
  · exact e0 _ (by norm_num)

/-- Claim C1: the engine's formula chain is
`energy_mj = lcv * m * 1e6`, `ghg_mt = energy_mj * ghg_wtw / 1e6`,
`co2_mt = energy_mj * co2_ttw / 1e6`; for HFO (LCV 0.0405, GHG 91.74,
CO2 76.89) with sailing mass 100 t it yields energy 4,050,000 MJ,
GHG 371.547 MT and CO2 311.4045 MT. -/
theorem c1_formula_chain :
    (∀ m lcv : ℚ, calc_energy_mt m lcv = lcv * m * 1000000) ∧
    (∀ e g : ℚ, calc_ghg_mt e g = e * g / 1000000) ∧
    (∀ e c : ℚ, calc_co2_mt e c = e * c / 1000000) ∧
    calc_energy_mt 100 hfoFactor.lcv = 4050000 ∧
    calc_ghg_mt 4050000 hfoFactor.ghgWtW = 371.547 ∧
    calc_co2_mt 4050000 hfoFactor.co2TtW = 311.4045 := by
  refine ⟨fun m lcv => rfl, fun e g => rfl, fun e c => rfl, ?_, ?_, ?_⟩ <;>
    norm_num [calc_energy_mt, calc_ghg_mt, calc_co2_mt, hfoFactor]

/-- Claim C7: the formula chain is linear in mass: doubling the mass doubles
energy, GHG, CO2 and EUA count. -/
theorem c7_linearity (m lcv g c : ℚ) :
    calc_energy_mt (2 * m) lcv = 2 * calc_energy_mt m lcv ∧
    calc_ghg_mt (calc_energy_mt (2 * m) lcv) g = 2 * calc_ghg_mt (calc_energy_mt m lcv) g ∧
    calc_co2_mt (calc_energy_mt (2 * m) lcv) c = 2 * calc_co2_mt (calc_energy_mt m lcv) c ∧
    calc_eua (calc_co2_mt (calc_energy_mt (2 * m) lcv) c) =
      2 * calc_eua (calc_co2_mt (calc_energy_mt m lcv) c) := by
  refine ⟨?_, ?_, ?_, ?_⟩ <;>
    simp only [calc_energy_mt, calc_ghg_mt, calc_co2_mt, calc_eua] <;> ring

/-- Claim C2: with nonnegative LCVs and consumption fields (as the input
widgets enforce), GHG intensity is absent when the total energy is zero and
otherwise equals `total_ghg_mt * 1e6 / (total_energy_tj * 1e6)`. -/
theorem c2_ghg_intensity_guard (entries : List (String × EmissionFactor × FuelInput))
    (h : ∀ e ∈ entries, 0 ≤ e.2.1.lcv ∧ NonnegInput e.2.2) :
    (totalEnergyTJ (calcResults entries) = 0 → ghgIntensity (calcResults entries) = none) ∧
    (totalEnergyTJ (calcResults entries) ≠ 0 →
      ghgIntensity (calcResults entries) =
        some (totalGhgMT (calcResults entries) * 1000000 /
          (totalEnergyTJ (calcResults entries) * 1000000))) := by
  constructor
  · intro h0
    unfold ghgIntensity
    rw [h0]
    norm_num
  · intro hne
    have hpos : 0 < totalEnergyTJ (calcResults entries) :=
      lt_of_le_of_ne (totalEnergyTJ_nonneg h) (Ne.symm hne)
    unfold ghgIntensity
    rw [if_pos hpos]

/-- Witness for C2 at the single-fuel HFO snapshot with 100 t sailing
consumption: the total energy is nonzero and the intensity is the stated
ratio. -/
theorem c2_ghg_intensity_guard_witness :
    ghgIntensity (calcResults [("HFO", hfoFactor, input100)]) =
      some (totalGhgMT (calcResults [("HFO", hfoFactor, input100)]) * 1000000 /
        (totalEnergyTJ (calcResults [("HFO", hfoFactor, input100)]) * 1000000)) := by
  have hE : totalEnergyTJ (calcResults [("HFO", hfoFactor, input100)]) = 4.05 := by
    rw [calcResults_hfo100, calcRow_hfo100]
    norm_num [totalEnergyTJ, totalSailingEnergyTJ, totalPortEnergyTJ]
  refine (c2_ghg_intensity_guard [("HFO", hfoFactor, input100)] ?_).2 (by rw [hE]; norm_num)
  intro e he
  simp only [List.mem_singleton] at he
  subst he
  exact ⟨by norm_num [hfoFactor], by norm_num [NonnegInput, input100]⟩

/-- Claim C3: the voyage is non-compliant iff the intensity exceeds the
target; with positive total energy the penalty expression vanishes exactly
at the target; and the penalty equals
`gap * total_energy_mj * (2400 / 1e6)`, i.e. the per-MJ rate is the
configured constant 2400 scaled by the engine's `/ 1e6` convention. -/
theorem c3_compliance (intensity target total_energy_tj : ℚ) :
    (isCompliant (complianceGap intensity target) = false ↔ target < intensity) ∧
    (0 < total_energy_tj →
      (penaltyFactor (complianceGap intensity target) total_energy_tj = 0 ↔
        intensity = target)) ∧
    penaltyFactor (complianceGap intensity target) total_energy_tj =
      (intensity - target) * (total_energy_tj * 1000000) * (2400 / 1000000) := by
  have hpe : penaltyFactor (complianceGap intensity target) total_energy_tj =
      (intensity - target) * total_energy_tj * 2400 := by
    unfold penaltyFactor complianceGap
    ring
  refine ⟨?_, ?_, ?_⟩
  · simp [isCompliant, complianceGap, decide_eq_false_iff_not, not_le, sub_pos]
  · intro hE
    rw [hpe]
    constructor
    · intro h0
      rcases mul_eq_zero.mp h0 with h | h
      · rcases mul_eq_zero.mp h with h2 | h2
        · exact sub_eq_zero.mp h2
        · exact absurd h2 (ne_of_gt hE)
      · norm_num at h
    · intro h
      rw [h, sub_self, zero_mul, zero_mul]
  · rw [hpe]
    ring

/-- Witness for C3 at intensity 95, target 89.34 and total energy 4.05 TJ:
non-compliant, penalty zero iff 95 = 89.34, and the penalty equals the
gap times energy times the scaled rate. -/
theorem c3_compliance_witness :
    (isCompliant (complianceGap 95 89.34) = false ↔ (89.34 : ℚ) < 95) ∧
    (penaltyFactor (complianceGap 95 89.34) 4.05 = 0 ↔ (95 : ℚ) = 89.34) ∧
    penaltyFactor (complianceGap 95 89.34) 4.05 =
      (95 - 89.34) * (4.05 * 1000000) * (2400 / 1000000) :=
  ⟨(c3_compliance 95 89.34 4.05).1,
    (c3_compliance 95 89.34 4.05).2.1 (by norm_num),
    (c3_compliance 95 89.34 4.05).2.2⟩

/-- Claim C4: under distinct fuel keys, a fuel whose sailing and port mass
sums are both zero is absent from the result rows, and a fuel with nonzero
total consumption is present. -/
theorem c4_zero_consumption_omitted (entries : List (String × EmissionFactor × FuelInput))
    (hnd : (entries.map Prod.fst).Nodup)
    (f : String) (factor : EmissionFactor) (v : FuelInput)
    (hmem : (f, factor, v) ∈ entries) :
    ((sailingMass v = 0 ∧ portMass v = 0) →
      f ∉ (calcResults entries).map PerFuelResult.fuelType) ∧
    (sailingMass v + portMass v ≠ 0 →
      f ∈ (calcResults entries).map PerFuelResult.fuelType) := by
  constructor
  · rintro ⟨hs, hp⟩ hf
    obtain ⟨r, hr, hrf⟩ := List.mem_map.mp hf
    rw [calcResults_mem_iff] at hr
    obtain ⟨e, he, hskip, hrow⟩ := hr
    have hef : e.1 = f := by
      rw [← hrf, ← hrow]
      exact rfl
    have heq : e = (f, factor, v) :=
      List.inj_on_of_nodup_map hnd he hmem (by simpa using hef)
    rw [heq] at hskip
    exact hskip ⟨hs, hp⟩
  · intro hsum
    have hskip : ¬(sailingMass v = 0 ∧ portMass v = 0) := by
      rintro ⟨hs, hp⟩
      rw [hs, hp] at hsum
      norm_num at hsum
    refine List.mem_map.mpr ⟨calcRow f factor v, ?_, rfl⟩
    rw [calcResults_mem_iff]
    exact ⟨(f, factor, v), hmem, hskip, rfl⟩

/-- Witness for C4 on the two-fuel snapshot: Biofuel 2 (no consumption) is
absent from the rows, HFO (100 t sailing) is present. -/
theorem c4_zero_consumption_omitted_witness :
    "Biofuel 2" ∉ (calcResults entriesTwo).map PerFuelResult.fuelType ∧
    "HFO" ∈ (calcResults entriesTwo).map PerFuelResult.fuelType := by
  have hnd : (entriesTwo.map Prod.fst).Nodup := by
    simp [entriesTwo]
  constructor
  · exact (c4_zero_consumption_omitted entriesTwo hnd "Biofuel 2" bf2Factor inputZero
      (by simp [entriesTwo])).1
      ⟨by norm_num [sailingMass, inputZero], by norm_num [portMass, inputZero]⟩
  · exact (c4_zero_consumption_omitted entriesTwo hnd "HFO" hfoFactor input100
      (by simp [entriesTwo])).2
      (by norm_num [sailingMass, portMass, input100])

/-- Claim C5: in every produced row the EUA columns equal the CO2 columns,
phase by phase (1 EUA per ton of CO2, and both stored with the same
rounding). -/
theorem c5_eua_equals_co2 (entries : List (String × EmissionFactor × FuelInput))
    (r : PerFuelResult) (hr : r ∈ calcResults entries) :
    r.sailingEUAs = r.sailingCo2 ∧ r.portEUAs = r.portCo2 := by
  rw [calcResults_mem_iff] at hr
  obtain ⟨e, -, -, hrow⟩ := hr
  rw [← hrow]
  exact ⟨rfl, rfl⟩

/-- Witness for C5 at the HFO row of the single-fuel snapshot. -/
theorem c5_eua_equals_co2_witness :
    (calcRow "HFO" hfoFactor input100).sailingEUAs =
        (calcRow "HFO" hfoFactor input100).sailingCo2 ∧
      (calcRow "HFO" hfoFactor input100).portEUAs =
        (calcRow "HFO" hfoFactor input100).portCo2 := by
  refine c5_eua_equals_co2 [("HFO", hfoFactor, input100)] _ ?_
  rw [calcResults_mem_iff]
  exact ⟨("HFO", hfoFactor, input100), by simp,
    by norm_num [sailingMass, portMass, input100], rfl⟩

/-- Counterexample to C6 as stated: Biofuel 2 keeps its default zero LCV;
with 1 t of consumption the engine raises no error and instead emits a
result row for that fuel whose energy figures are zero. -/
theorem c6_counterexample :
    (calcResults [("Biofuel 2", bf2Factor, input1)]).map PerFuelResult.fuelType =
        ["Biofuel 2"] ∧
      (calcResults [("Biofuel 2", bf2Factor, input1)]).map PerFuelResult.sailingEnergyTJ =
        [0] ∧
      (calcResults [("Biofuel 2", bf2Factor, input1)]).map PerFuelResult.portEnergyTJ =
        [0] := by
  have h : calcResults [("Biofuel 2", bf2Factor, input1)] =
      [calcRow "Biofuel 2" bf2Factor input1] := by
    norm_num [calcResults, List.filterMap_cons, sailingMass, portMass, input1]
  rw [h]
  have e4 : ∀ y : ℚ, y = 0 → pyRound 4 y = 0 := by
    rintro y rfl
    exact pyRound_zero 4
  refine ⟨rfl, ?_, ?_⟩ <;>
    simp only [calcRow, bf2Factor, calc_energy_mt, List.map_cons, List.map_nil] <;>
    rw [e4 _ (by norm_num)]

/-- Claim C6 amended: a fuel whose factor has LCV 0 (the Biofuel 2/3
defaults) and nonzero consumption is not rejected; the engine includes it
in the result rows with zero energy, GHG, CO2 and EUA figures. -/
theorem c6_amended_zero_lcv_included (entries : List (String × EmissionFactor × FuelInput))
    (f : String) (factor : EmissionFactor) (v : FuelInput)
    (hmem : (f, factor, v) ∈ entries) (hlcv : factor.lcv = 0)
    (hnz : sailingMass v + portMass v ≠ 0) :
    ∃ r, r ∈ calcResults entries ∧ r.fuelType = f ∧
      r.sailingEnergyTJ = 0 ∧ r.portEnergyTJ = 0 ∧ r.sailingGhg = 0 ∧ r.portGhg = 0 ∧
      r.sailingCo2 = 0 ∧ r.portCo2 = 0 ∧ r.sailingEUAs = 0 ∧ r.portEUAs = 0 := by
  have hskip : ¬(sailingMass v = 0 ∧ portMass v = 0) := by
    rintro ⟨hs, hp⟩
    rw [hs, hp] at hnz
    norm_num at hnz
  have e0 : ∀ n : ℕ, ∀ y : ℚ, y = 0 → pyRound n y = 0 := by
    rintro n y rfl
    exact pyRound_zero n
  refine ⟨calcRow f factor v, ?_, rfl, ?_, ?_, ?_, ?_, ?_, ?_, ?_, ?_⟩
  · rw [calcResults_mem_iff]
    exact ⟨(f, factor, v), hmem, hskip, rfl⟩
  all_goals
    simp only [calcRow, hlcv, calc_energy_mt, calc_ghg_mt, calc_co2_mt, calc_eua]
  all_goals
    rw [e0 _ _ (by ring)]

/-- Witness for the amended C6 at the single-entry Biofuel 2 snapshot with
1 t of sailing consumption. -/
theorem c6_amended_zero_lcv_included_witness :
    ∃ r, r ∈ calcResults [("Biofuel 2", bf2Factor, input1)] ∧ r.fuelType = "Biofuel 2" ∧
      r.sailingEnergyTJ = 0 ∧ r.portEnergyTJ = 0 ∧ r.sailingGhg = 0 ∧ r.portGhg = 0 ∧
      r.sailingCo2 = 0 ∧ r.portCo2 = 0 ∧ r.sailingEUAs = 0 ∧ r.portEUAs = 0 :=
  c6_amended_zero_lcv_included [("Biofuel 2", bf2Factor, input1)] "Biofuel 2" bf2Factor input1
    (by simp) rfl (by norm_num [sailingMass, portMass, input1])

/-- Claim C8: the per-distance efficiency metrics are absent at distance 0
and the per-cargo metric is absent at cargo 0; with a positive divisor each
equals the total mass (or CO2) divided by the divisor, scaled to kg. -/
theorem c8_efficiency_guards (rs : List PerFuelResult) (d cargo : ℚ) :
    (fuelPerDistance rs 0 = none ∧ co2PerDistance rs 0 = none ∧ co2PerCargo rs 0 = none) ∧
    (0 < d → fuelPerDistance rs d = some (totalFuelMT rs / d * 1000)) ∧
    (0 < d → co2PerDistance rs d = some (totalCo2MT rs / d * 1000)) ∧
    (0 < cargo → co2PerCargo rs cargo = some (totalCo2MT rs / cargo * 1000)) := by
  refine ⟨⟨?_, ?_, ?_⟩, ?_, ?_, ?_⟩
  · unfold fuelPerDistance
    rw [if_neg (by norm_num)]
  · unfold co2PerDistance
    rw [if_neg (by norm_num)]
  · unfold co2PerCargo
    rw [if_neg (by norm_num)]
  · intro hpos
    unfold fuelPerDistance
    rw [if_pos hpos]
  · intro hpos
    unfold co2PerDistance
    rw [if_pos hpos]
  · intro hpos
    unfold co2PerCargo
    rw [if_pos hpos]

/-- Witness for C8 at the voyage defaults (distance 1873 nm, cargo
13612 t) over the HFO snapshot's rows. -/
theorem c8_efficiency_guards_witness :
    (fuelPerDistance (calcResults [("HFO", hfoFactor, input100)]) 0 = none ∧
      co2PerDistance (calcResults [("HFO", hfoFactor, input100)]) 0 = none ∧
      co2PerCargo (calcResults [("HFO", hfoFactor, input100)]) 0 = none) ∧
    fuelPerDistance (calcResults [("HFO", hfoFactor, input100)]) 1873 =
      some (totalFuelMT (calcResults [("HFO", hfoFactor, input100)]) / 1873 * 1000) ∧
    co2PerDistance (calcResults [("HFO", hfoFactor, input100)]) 1873 =
      some (totalCo2MT (calcResults [("HFO", hfoFactor, input100)]) / 1873 * 1000) ∧
    co2PerCargo (calcResults [("HFO", hfoFactor, input100)]) 13612 =
      some (totalCo2MT (calcResults [("HFO", hfoFactor, input100)]) / 13612 * 1000) :=
  ⟨(c8_efficiency_guards (calcResults [("HFO", hfoFactor, input100)]) 1873 13612).1,
    (c8_efficiency_guards (calcResults [("HFO", hfoFactor, input100)]) 1873 13612).2.1
      (by norm_num),
    (c8_efficiency_guards (calcResults [("HFO", hfoFactor, input100)]) 1873 13612).2.2.1
      (by norm_num),
    (c8_efficiency_guards (calcResults [("HFO", hfoFactor, input100)]) 1873 13612).2.2.2
      (by norm_num)⟩

/-- Claim C10: the voyage totals are sums of the display-rounded per-fuel
columns, and consequently the reported GHG intensity can differ from the
exact ratio of the unrounded totals; at the HFO/100 t snapshot the report
says 371.55 / 4.05 = 2477/27 gCO2e/MJ while the unrounded chain gives
exactly 91.74. -/
theorem c10_totals_after_rounding :
    (∀ rs : List PerFuelResult,
      totalGhgMT rs =
          (rs.map PerFuelResult.sailingGhg).sum + (rs.map PerFuelResult.portGhg).sum ∧
        totalEnergyTJ rs =
          (rs.map PerFuelResult.sailingEnergyTJ).sum +
            (rs.map PerFuelResult.portEnergyTJ).sum) ∧
    ghgIntensity (calcResults [("HFO", hfoFactor, input100)]) = some (2477 / 27) ∧
    calc_ghg_mt (calc_energy_mt 100 hfoFactor.lcv) hfoFactor.ghgWtW * 1000000 /
        (calc_energy_mt 100 hfoFactor.lcv / 1000000 * 1000000) = 9174 / 100 ∧
    ghgIntensity (calcResults [("HFO", hfoFactor, input100)]) ≠
      some (calc_ghg_mt (calc_energy_mt 100 hfoFactor.lcv) hfoFactor.ghgWtW * 1000000 /
        (calc_energy_mt 100 hfoFactor.lcv / 1000000 * 1000000)) := by
  have hint : ghgIntensity (calcResults [("HFO", hfoFactor, input100)]) = some (2477 / 27) := by
    rw [calcResults_hfo100, calcRow_hfo100]
    norm_num [ghgIntensity, totalEnergyTJ, totalGhgMT, totalSailingEnergyTJ,
      totalPortEnergyTJ, totalSailingGhg, totalPortGhg]
  have hexact : calc_ghg_mt (calc_energy_mt 100 hfoFactor.lcv) hfoFactor.ghgWtW * 1000000 /
      (calc_energy_mt 100 hfoFactor.lcv / 1000000 * 1000000) = 9174 / 100 := by
    norm_num [calc_ghg_mt, calc_energy_mt, hfoFactor]
  refine ⟨fun rs => ⟨rfl, rfl⟩, hint, hexact, ?_⟩
  rw [hint, hexact]
  norm_num

/-- Claim C9: the EU ETS cost estimate is `total EUAs * 85`, where the total
EUA count is the sum of the sailing and port EUA columns of the reported
rows and the configured EUA price is 85 €. -/
theorem c9_eua_cost (rs : List PerFuelResult) :
    euaCostEur rs = totalEUAsAll rs * euaPriceEur ∧
    euaPriceEur = 85 ∧
    totalEUAsAll rs =
      (rs.map PerFuelResult.sailingEUAs).sum + (rs.map PerFuelResult.portEUAs).sum :=
  ⟨rfl, rfl, rfl⟩

end Emissions
